import Mathlib

/-!
Shallow embedding of the Human-Activity-Recognition frontend's API service
layer (`services/api.ts`, Gradio-backend variant): the `ApiService.uploadVideo`
response parsing and the `FrameStreamClient` WebSocket session state machine.

Conventions of the embedding:
* JavaScript strings are Lean `String`s (scanned as `List Char`).
* JavaScript numbers arising from `parseFloat` are `Option ℚ`, with `none`
  standing for `NaN` (which `parseFloat` yields on inputs such as ".").
* The WebSocket transport is abstracted to its `readyState`; the client's
  `this.ws` field is `Option ReadyState` (`none` is the `null` reference).
* Side effects (socket sends, callback invocations) are reified as an
  explicit `Effect` list returned next to the successor state.
-/

/-- The `ActivityPrediction` interface of the `../types` module (its type
definitions are the second document concatenated into
`src/src/components/Footer.tsx`, lines 146 to 150):
`predicted_class: string; confidence: number; all_probabilities?: Record<string, number>`.
The optional probability record is `Option` of an association list; `none`
is an absent field. -/
structure ActivityPrediction where
  predicted_class : String
  confidence : ℚ
  all_probabilities : Option (List (String × ℚ)) := none
deriving DecidableEq

/-- The `WSMessage` interface of the `../types` module
(`src/src/components/Footer.tsx`, lines 156 to 160):
`type: 'prediction' | 'error' | 'ack' | 'final'; message?: string; data?: ActivityPrediction`.
The `type` tag is kept as a `String` (its wire form, which is what
`handleMessage` switches on); absent optional fields are `none`. -/
structure WSMessage where
  type : String
  message : Option String := none
  data : Option ActivityPrediction := none
deriving DecidableEq

/-- Digits-string to number, as `parseInt` behaves on an all-digit string. -/
def natOfDigits (l : List Char) : Nat :=
  l.foldl (fun acc c => acc * 10 + (c.toNat - '0'.toNat)) 0

/-- JavaScript `parseFloat` restricted to strings over the alphabet `[0-9.]`
(the only strings the code applies it to): parses the longest prefix of shape
`digits`, `digits "." digits*` or `"." digits+`; yields `none` (NaN) when no
such nonempty prefix exists (e.g. on `"."`). -/
def parseFloatDD (s : List Char) : Option ℚ :=
  match s.drop (s.takeWhile Char.isDigit).length with
  | '.' :: r2 =>
    if (s.takeWhile Char.isDigit).isEmpty ∧ (r2.takeWhile Char.isDigit).isEmpty then
      none
    else
      some ((natOfDigits (s.takeWhile Char.isDigit) : ℚ) +
        (natOfDigits (r2.takeWhile Char.isDigit) : ℚ) / (10 ^ (r2.takeWhile Char.isDigit).length))
  | _ =>
    if (s.takeWhile Char.isDigit).isEmpty then none
    else some ((natOfDigits (s.takeWhile Char.isDigit) : ℚ))

/-- Character class `[\d.]` of the confidence regex. -/
def isDigitOrDot (c : Char) : Bool := c.isDigit || c = '.'

/-- JavaScript `String.prototype.replace('%', '')`: removes the first `'%'`. -/
def replaceFirstPct : List Char → List Char
  | [] => []
  | '%' :: rest => rest
  | c :: rest => c :: replaceFirstPct rest

/-- JavaScript `String.prototype.trim` whitespace (the characters that can
occur in the matched capture groups). -/
def isJsSpace (c : Char) : Bool :=
  c = ' ' || c = '\t' || c = '\n' || c = '\r' || c = '\x0b' || c = '\x0c'

/-- JavaScript `String.prototype.trim` on a character list. -/
def jsTrim (l : List Char) : List Char :=
  ((l.dropWhile isJsSpace).reverse.dropWhile isJsSpace).reverse

/-- Regex search: try the pattern-at-an-index matcher `f` at every start
index left to right and return the first capture, as `String.prototype.match`
does for an unanchored pattern. -/
def scanMatch (f : List Char → Option (List Char)) : List Char → Option (List Char)
  | [] => f []
  | c :: cs =>
    match f (c :: cs) with
    | some r => some r
    | none => scanMatch f cs

/-- Match a literal prefix then hand the remainder to the capture matcher. -/
def tryAt (lit : List Char) (grab : List Char → Option (List Char))
    (s : List Char) : Option (List Char) :=
  if lit.isPrefixOf s then grab (s.drop lit.length) else none

/-- Capture of `([^\n]+)`: the maximal nonempty run of non-newline characters. -/
def grabLine (rest : List Char) : Option (List Char) :=
  if (rest.takeWhile (fun c => c ≠ '\n')).isEmpty then none
  else some (rest.takeWhile (fun c => c ≠ '\n'))

/-- Capture of `([\d.]+%)`: a maximal nonempty `[\d.]` run immediately
followed by `'%'` (greedy run, no interior backtracking possible since `'%'`
is outside the class); the capture includes the `'%'`. -/
def grabPct (rest : List Char) : Option (List Char) :=
  if (rest.takeWhile isDigitOrDot).isEmpty then none
  else
    match rest.drop (rest.takeWhile isDigitOrDot).length with
    | '%' :: _ => some (rest.takeWhile isDigitOrDot ++ ['%'])
    | _ => none

/-- Capture of `(\d+)`: a maximal nonempty digit run. -/
def grabDigits (rest : List Char) : Option (List Char) :=
  if (rest.takeWhile Char.isDigit).isEmpty then none
  else some (rest.takeWhile Char.isDigit)

/-- `resultText.match(/\*\*Predicted Activity\*\*: ([^\n]+)/)`, capture group 1. -/
def matchActivity (s : List Char) : Option (List Char) :=
  scanMatch (tryAt "**Predicted Activity**: ".toList grabLine) s

/-- `resultText.match(/\*\*Confidence\*\*: ([\d.]+%)/)`, capture group 1. -/
def matchConfidence (s : List Char) : Option (List Char) :=
  scanMatch (tryAt "**Confidence**: ".toList grabPct) s

/-- `resultText.match(/\*\*Class ID\*\*: (\d+)/)`, capture group 1. -/
def matchClassId (s : List Char) : Option (List Char) :=
  scanMatch (tryAt "**Class ID**: ".toList grabDigits) s

/-- The confidence number the code computes in the structured branch:
`parseFloat(confidenceMatch[1].replace('%', '')) / 100`, as a function of the
whole response text (`none` when the regex does not match or parseFloat NaNs). -/
def confidencePct (s : String) : Option ℚ :=
  (matchConfidence s.toList).bind (fun cap => parseFloatDD (replaceFirstPct cap))

/-- The record `uploadVideo` actually resolves with (the object literals at
source lines 94 to 98 and 105 to 110): fields `activity`, `confidence`,
`class_id` and optionally `raw_response`. Note the declared
`VideoUploadResponse` interface in `../types`
(`src/src/components/Footer.tsx`, lines 152 to 154) instead extends
`ActivityPrediction` with `video_path`; the Gradio-variant code does not
construct that shape, and the embedding follows the code. `confidence` is
`Option ℚ` because `parseFloat` can produce NaN. -/
structure VideoUploadResponse where
  activity : String
  confidence : Option ℚ
  class_id : Nat
  raw_response : Option String := none
deriving DecidableEq

instance {ε α : Type} [DecidableEq ε] [DecidableEq α] : DecidableEq (Except ε α) := by
  intro a b
  cases a <;> cases b
  case error.error e e' =>
    exact if h : e = e' then .isTrue (by rw [h]) else .isFalse (by intro hh; cases hh; exact h rfl)
  case ok.ok x y =>
    exact if h : x = y then .isTrue (by rw [h]) else .isFalse (by intro hh; cases hh; exact h rfl)
  case error.ok e x => exact .isFalse (by intro hh; cases hh)
  case ok.error x e => exact .isFalse (by intro hh; cases hh)

namespace ApiService

/-- `ApiService.uploadVideo`, from the point where the Gradio HTTP response
body has been received and JSON-decoded: `data` is `gradioResponse.data`
(a list of result strings). Mirrors source lines 83 to 113: with a nonempty
`data`, the three regex matches on `data[0]` either all succeed and yield a
structured record, or the default low-confidence record is returned; with an
empty `data`, `new Error('Invalid response format from Gradio API')` is
thrown, modelled as `Except.error`. -/
def uploadVideo (data : List String) : Except String VideoUploadResponse :=
  match data with
  | [] => .error "Invalid response format from Gradio API"
  | resultText :: _ =>
    match matchActivity resultText.toList, matchConfidence resultText.toList,
        matchClassId resultText.toList with
    | some a, some c, some k =>
      .ok { activity := (jsTrim a).asString
            confidence := (parseFloatDD (replaceFirstPct c)).map (fun p => p / 100)
            class_id := natOfDigits k }
    | _, _, _ =>
      .ok { activity := "Unknown"
            confidence := some (1 / 2)
            class_id := 0
            raw_response := some resultText }

end ApiService

namespace FrameStreamClient

/-- WebSocket `readyState` values. -/
inductive ReadyState
  | CONNECTING
  | OPEN
  | CLOSING
  | CLOSED
deriving DecidableEq

/-- The settlement state of the promise returned by `connect()`. -/
inductive PromiseState
  | pending
  | resolved
  | rejected
deriving DecidableEq

/-- The mutable state of one `FrameStreamClient`: `ws` is the `this.ws`
reference abstracted to the socket's `readyState` (`none` is `null`);
`connectResult` is the promise of the most recent `connect()` call. -/
structure State where
  ws : Option ReadyState
  connectResult : PromiseState
deriving DecidableEq

/-- A payload passed to `WebSocket.send`. -/
inductive OutPayload
  | binary (bytes : List Nat)
  | text (s : String)
deriving DecidableEq

/-- A reified side effect of a client operation or event handler, in order
of occurrence. -/
inductive Effect
  | send (payload : OutPayload)
  | callPrediction (p : ActivityPrediction)
  | callError (msg : String)
  | callConnected
  | callDisconnected
  | closeSocket
deriving DecidableEq

/-- `get isConnected(): boolean`, i.e. `this.ws?.readyState === WebSocket.OPEN`. -/
def isConnected (st : State) : Bool :=
  match st.ws with
  | some .OPEN => true
  | _ => false

/-- `sendFrame(jpegBytes)`: send iff `this.ws?.readyState === WebSocket.OPEN`. -/
def sendFrame (st : State) (jpegBytes : List Nat) : State × List Effect :=
  if st.ws = some .OPEN then (st, [.send (.binary jpegBytes)]) else (st, [])

/-- `JSON.stringify(\x7b type \x7d)` for the control envelope. -/
def encodeControl (type : String) : String :=
  "\x7b\"type\":\"" ++ type ++ "\"\x7d"

/-- `sendControl(type)`: send the JSON control envelope iff the socket is open. -/
def sendControl (st : State) (type : String) : State × List Effect :=
  if st.ws = some .OPEN then (st, [.send (.text (encodeControl type))]) else (st, [])

/-- `disconnect()`: `if (this.ws) \x7b this.ws.close(); this.ws = null; \x7d`. -/
def disconnect (st : State) : State × List Effect :=
  match st.ws with
  | some _ => ({ st with ws := none }, [.closeSocket])
  | none => (st, [])

/-- `private handleMessage(message: WSMessage)`: the switch on `message.type`.
`message.message || 'Unknown error'` falls back on any falsy value, i.e. on
an absent field or the empty string. -/
def handleMessage (message : WSMessage) : List Effect :=
  if message.type = "prediction" then
    match message.data with
    | some d => [.callPrediction d]
    | none => []
  else if message.type = "error" then
    [.callError (match message.message with
      | some s => if s = "" then "Unknown error" else s
      | none => "Unknown error")]
  else if message.type = "final" then
    match message.data with
    | some d => [.callPrediction d]
    | none => []
  else []

/-- `connect()` up to the point the handlers are installed: `this.ws` becomes
a fresh socket in the `CONNECTING` state and a fresh pending promise is
returned. -/
def connect (st : State) : State :=
  { st with ws := some .CONNECTING, connectResult := .pending }

/-- A transport event delivered to the installed handlers. For a message
event, `decoded` is the outcome of `JSON.parse(event.data)` interpreted as a
`WSMessage`: `none` when parsing throws. -/
inductive WSEvent
  | openEv
  | messageEv (decoded : Option WSMessage)
  | errorEv
  | closeEv

/-- Resolving a promise settles it only if still pending. -/
def resolveP : PromiseState → PromiseState
  | .pending => .resolved
  | p => p

/-- Rejecting a promise settles it only if still pending. -/
def rejectP : PromiseState → PromiseState
  | .pending => .rejected
  | p => p

/-- One transport event dispatched to the handlers `connect()` installed on
its socket (source lines 195 to 221). The handler bodies never read
`this.ws`, and they stay attached to the socket itself, so they run with the
same effect in every client state — in particular a close event arriving
after `disconnect()` has already nulled the reference still invokes the
disconnected callback. `onopen` fires the connected callback and resolves
(the transport has just moved the referenced socket's `readyState` to
`OPEN`, hence the `Option.map`; a stale socket's `readyState` is not visible
through `this.ws`); `onmessage` dispatches via `handleMessage` or reports
the fixed parse-failure reason; `onerror` fires the error callback and
rejects; `onclose` fires the disconnected callback and nulls `this.ws`. -/
def step (st : State) (e : WSEvent) : State × List Effect :=
  match e with
  | .openEv =>
    ({ st with
        ws := st.ws.map (fun _ => ReadyState.OPEN),
        connectResult := resolveP st.connectResult },
      [.callConnected])
  | .messageEv (some m) => (st, handleMessage m)
  | .messageEv none => (st, [.callError "Failed to parse server message"])
  | .errorEv =>
    ({ st with connectResult := rejectP st.connectResult },
      [.callError "Connection error"])
  | .closeEv => ({ st with ws := none }, [.callDisconnected])

end FrameStreamClient

/-- Any value `parseFloat` produces from a `[0-9.]` string is nonnegative. -/
theorem parseFloatDD_nonneg (l : List Char) (q : ℚ) (h : parseFloatDD l = some q) :
    0 ≤ q := by
  unfold parseFloatDD at h
  split at h <;> split at h <;> simp_all <;> (rw [← h]; positivity)

open FrameStreamClient in
/-- C1: in every state in which the transport is not open (the `ws` reference
is `null` or its `readyState` is not `OPEN`), `sendFrame` and `sendControl`
are silent no-ops: no exception, no transmitted payload, no callback, and no
change to the client state. -/
theorem sendFrame_sendControl_not_open_noop (st : State) (jpegBytes : List Nat)
    (type : String) (h : st.ws ≠ some ReadyState.OPEN) :
    sendFrame st jpegBytes = (st, []) ∧ sendControl st type = (st, []) := by
  unfold sendFrame sendControl
  rw [if_neg h, if_neg h]
  exact ⟨rfl, rfl⟩

open FrameStreamClient in
/-- Witness for C1: with a null socket reference, `sendFrame` and
`sendControl` leave the state untouched and emit no effect. -/
theorem sendFrame_sendControl_not_open_noop_witness :
    sendFrame ⟨none, .pending⟩ [255, 216] = (⟨none, .pending⟩, []) ∧
    sendControl ⟨none, .pending⟩ "start" = (⟨none, .pending⟩, []) :=
  sendFrame_sendControl_not_open_noop ⟨none, .pending⟩ [255, 216] "start" (by decide)

open FrameStreamClient in
/-- C2: a decoded message of kind `final` is dispatched exactly like one of
kind `prediction` with the same payload, and in both cases the prediction
callback fires with the payload iff the payload is present; an absent payload
produces no effect at all. -/
theorem final_dispatch_eq_prediction (d : Option ActivityPrediction) (m : Option String) :
    handleMessage { type := "final", data := d, message := m } =
      handleMessage { type := "prediction", data := d, message := m } ∧
    handleMessage { type := "prediction", data := d, message := m } =
      (d.map Effect.callPrediction).toList := by
  cases d <;> exact ⟨rfl, rfl⟩

open FrameStreamClient in
/-- C10: a decoded `error` message whose `message` field is present but equal
to the empty string gets the fallback text "Unknown error" (the `||` fallback
fires on any falsy value), exactly as when the field is absent. -/
theorem error_empty_message_gets_fallback (d : Option ActivityPrediction) :
    handleMessage { type := "error", data := d, message := some "" } =
      [.callError "Unknown error"] ∧
    handleMessage { type := "error", data := d, message := none } =
      [.callError "Unknown error"] :=
  ⟨rfl, rfl⟩

open FrameStreamClient in
/-- Counterexample to C7 as stated: for the `error` message whose `message`
field is present and equal to `""`, the error callback receives the fallback
"Unknown error", not the present text `""`. -/
theorem error_present_message_counterexample :
    handleMessage { type := "error", data := none, message := some "" } =
      [.callError "Unknown error"] ∧
    handleMessage { type := "error", data := none, message := some "" } ≠
      [.callError ""] :=
  ⟨rfl, by decide⟩

open FrameStreamClient in
/-- C7 amended: a decoded `error` message with an absent or empty `message`
field invokes the error callback with exactly "Unknown error"; with a
present and nonempty `message` it invokes the error callback with that
text. -/
theorem error_dispatch_message_text (d : Option ActivityPrediction) (s : String)
    (h : s ≠ "") :
    handleMessage { type := "error", data := d, message := some s } = [.callError s] ∧
    handleMessage { type := "error", data := d, message := some "" } =
      [.callError "Unknown error"] ∧
    handleMessage { type := "error", data := d, message := none } =
      [.callError "Unknown error"] := by
  refine ⟨?_, rfl, rfl⟩
  simp [handleMessage, h]

open FrameStreamClient in
/-- Witness for the amended C7 at the nonempty text "boom". -/
theorem error_dispatch_message_text_witness :
    handleMessage { type := "error", data := none, message := some "boom" } =
      [.callError "boom"] ∧
    handleMessage { type := "error", data := none, message := some "" } =
      [.callError "Unknown error"] ∧
    handleMessage { type := "error", data := none, message := none } =
      [.callError "Unknown error"] :=
  error_dispatch_message_text none "boom" (by decide)

open FrameStreamClient in
/-- Counterexample to C4 as stated: the parse-failure reason the code passes
to the error callback is "Failed to parse server message" (capital F), not
the claimed string "failed to parse server message". -/
theorem parse_failure_reason_counterexample :
    (step ⟨some .OPEN, .resolved⟩ (.messageEv none)).2 =
      [.callError "Failed to parse server message"] ∧
    (step ⟨some .OPEN, .resolved⟩ (.messageEv none)).2 ≠
      [.callError "failed to parse server message"] :=
  ⟨rfl, by decide⟩

open FrameStreamClient in
/-- C4 amended: in every client state, an inbound text payload that fails to
decode invokes the error callback with exactly "Failed to parse server
message" (capital F) and nothing else: the state is unchanged (the
connection is not closed) and the disconnected callback is not invoked. -/
theorem parse_failure_reports_error_no_close (st : State) :
    step st (.messageEv none) = (st, [.callError "Failed to parse server message"]) :=
  rfl

open FrameStreamClient in
/-- C5: after `connect()` installs a fresh socket, a transport error event
rejects the pending promise and invokes the error callback with the generic
"Connection error" message — and nothing else, so no retry is attempted —
leaving `isConnected` false; conversely an open event resolves the promise
and invokes the connected callback, leaving `isConnected` true. -/
theorem connect_error_rejects_open_resolves (st : State) :
    step (connect st) .errorEv =
      (⟨some .CONNECTING, .rejected⟩, [.callError "Connection error"]) ∧
    isConnected (step (connect st) .errorEv).1 = false ∧
    step (connect st) .openEv = (⟨some .OPEN, .resolved⟩, [.callConnected]) ∧
    isConnected (step (connect st) .openEv).1 = true :=
  ⟨rfl, rfl, rfl, rfl⟩

open FrameStreamClient in
/-- C6: every transport close event — in any client state, clean or abrupt,
including a close arriving after `disconnect()` has already nulled the
reference (the `onclose` handler stays attached to the socket and never
reads `this.ws`) — invokes exactly the disconnected callback and nulls the
socket reference, so `isConnected` is false afterwards; the close handling
leaves `connectResult` untouched, so nothing in it distinguishes error
closure from normal closure. -/
theorem close_event_disconnects (st : State) :
    (step st .closeEv).2 = [.callDisconnected] ∧
    (step st .closeEv).1.ws = none ∧
    isConnected (step st .closeEv).1 = false ∧
    (step st .closeEv).1.connectResult = st.connectResult :=
  ⟨rfl, rfl, rfl, rfl⟩

open FrameStreamClient in
/-- C8: `disconnect()` always leaves a null socket reference with
`isConnected` false, emits the close effect exactly when a reference was
held, and calling it again from the resulting state is a no-op returning the
same state, so the operation is idempotent. -/
theorem disconnect_idempotent (st : State) :
    (disconnect st).1.ws = none ∧
    isConnected (disconnect st).1 = false ∧
    disconnect (disconnect st).1 = ((disconnect st).1, []) ∧
    (disconnect st).2 = (if st.ws.isSome then [Effect.closeSocket] else []) := by
  cases h : st.ws <;> simp [disconnect, isConnected, h]

/-- C9: whenever any of the three fixed-format markers (predicted activity,
confidence percentage, class identifier) fails to match in the Gradio result
text, `uploadVideo` resolves — it does not throw — with the default
low-confidence record: activity "Unknown", confidence 0.5, class id 0,
carrying the raw response text. -/
theorem uploadVideo_fallback_on_marker_miss (s : String)
    (h : matchActivity s.toList = none ∨ matchConfidence s.toList = none ∨
      matchClassId s.toList = none) :
    ApiService.uploadVideo [s] =
      .ok { activity := "Unknown", confidence := some (1 / 2), class_id := 0,
            raw_response := some s } := by
  cases hA : matchActivity s.toList <;> cases hC : matchConfidence s.toList <;>
    cases hK : matchClassId s.toList <;>
      simp only [ApiService.uploadVideo, hA, hC, hK]
  simp_all

/-- Witness for C9 on a markerless response text. -/
theorem uploadVideo_fallback_on_marker_miss_witness :
    ApiService.uploadVideo ["hello"] =
      .ok { activity := "Unknown", confidence := some (1 / 2), class_id := 0,
            raw_response := some "hello" } :=
  uploadVideo_fallback_on_marker_miss "hello" (Or.inl (by decide))

/-- Counterexample to C3 as stated: on the well-formed Gradio text reporting
a confidence of 150%, `uploadVideo` returns confidence 3/2, which is outside
[0,1] — the percentage is divided by 100 without any clamping. -/
theorem uploadVideo_confidence_exceeds_unit_counterexample :
    ApiService.uploadVideo
        ["**Predicted Activity**: Walking\n**Confidence**: 150%\n**Class ID**: 3"] =
      .ok { activity := "Walking", confidence := some (3 / 2), class_id := 3 } ∧
    ¬ ((3 : ℚ) / 2 ≤ 1) := by
  constructor
  · have hA : matchActivity
        "**Predicted Activity**: Walking\n**Confidence**: 150%\n**Class ID**: 3".toList =
        some "Walking".toList := by decide
    have hC : matchConfidence
        "**Predicted Activity**: Walking\n**Confidence**: 150%\n**Class ID**: 3".toList =
        some "150%".toList := by decide
    have hK : matchClassId
        "**Predicted Activity**: Walking\n**Confidence**: 150%\n**Class ID**: 3".toList =
        some "3".toList := by decide
    have hP : parseFloatDD (replaceFirstPct "150%".toList) = some (150 : ℚ) := by
      have hR : replaceFirstPct "150%".toList = "150".toList := by decide
      rw [hR]; rfl
    simp only [ApiService.uploadVideo, hA, hC, hK, hP, Option.map,
      Except.ok.injEq, VideoUploadResponse.mk.injEq, Option.some.injEq]
    refine ⟨by decide, by norm_num, by decide, trivial⟩
  · norm_num

/-- C3 amended: every confidence value `uploadVideo` returns (when it is a
number at all, i.e. not NaN) is nonnegative, and it lies in [0,1] whenever
the percentage number matched in the response text is at most 100; in
particular the fallback 0.5 always lies in [0,1]. (The claim's unrestricted
[0,1] bound fails, by the counterexample, because the matched percentage is
divided by 100 without clamping.) -/
theorem uploadVideo_confidence_nonneg_bounded (s : String) (r : VideoUploadResponse)
    (q : ℚ) (hr : ApiService.uploadVideo [s] = .ok r) (hq : r.confidence = some q) :
    0 ≤ q ∧ ∀ p : ℚ, confidencePct s = some p → p ≤ 100 → q ≤ 1 := by
  cases hA : matchActivity s.toList <;> cases hC : matchConfidence s.toList <;>
    cases hK : matchClassId s.toList <;>
      simp only [ApiService.uploadVideo, hA, hC, hK] at hr <;>
        rw [Except.ok.injEq] at hr <;> subst hr
  case some.some.some a c k =>
    simp only at hq
    cases hp : parseFloatDD (replaceFirstPct c) with
    | none => rw [hp] at hq; simp at hq
    | some p0 =>
      rw [hp] at hq
      simp only [Option.map, Option.some.injEq] at hq
      subst hq
      have hnn : (0 : ℚ) ≤ p0 := parseFloatDD_nonneg _ _ hp
      refine ⟨by positivity, ?_⟩
      intro p hcp hple
      rw [show confidencePct s = parseFloatDD (replaceFirstPct c) by
        unfold confidencePct; rw [hC]; rfl, hp, Option.some.injEq] at hcp
      subst hcp
      rw [div_le_one (by norm_num)]
      linarith
  all_goals
    simp only at hq
    rw [Option.some.injEq] at hq
    subst hq
    exact ⟨by norm_num, fun p _ _ => by norm_num⟩

/-- Witness for the amended C3 on the structured-parse path: the text
reporting 50% yields confidence 1/2, which is nonnegative, and here the
matched percentage is `some 50`, so the bound clause is exercised with a
percentage that is at most 100. -/
theorem uploadVideo_confidence_nonneg_bounded_witness :
    0 ≤ (1 / 2 : ℚ) ∧
    ∀ p : ℚ,
      confidencePct "**Predicted Activity**: A\n**Confidence**: 50%\n**Class ID**: 1" =
        some p → p ≤ 100 → (1 / 2 : ℚ) ≤ 1 :=
  uploadVideo_confidence_nonneg_bounded
    "**Predicted Activity**: A\n**Confidence**: 50%\n**Class ID**: 1"
    { activity := "A", confidence := some (1 / 2), class_id := 1 } (1 / 2)
    (by
      have hA : matchActivity
          "**Predicted Activity**: A\n**Confidence**: 50%\n**Class ID**: 1".toList =
          some "A".toList := by decide
      have hC : matchConfidence
          "**Predicted Activity**: A\n**Confidence**: 50%\n**Class ID**: 1".toList =
          some "50%".toList := by decide
      have hK : matchClassId
          "**Predicted Activity**: A\n**Confidence**: 50%\n**Class ID**: 1".toList =
          some "1".toList := by decide
      have hP : parseFloatDD (replaceFirstPct "50%".toList) = some (50 : ℚ) := by
        have hR : replaceFirstPct "50%".toList = "50".toList := by decide
        rw [hR]; rfl
      simp only [ApiService.uploadVideo, hA, hC, hK, hP, Option.map,
        Except.ok.injEq, VideoUploadResponse.mk.injEq, Option.some.injEq]
      refine ⟨by decide, by norm_num, by decide, trivial⟩)
    rfl
